/-
Verification of the SDN-5G slicing controller and slice manager.

This file embeds, in Lean 4, the parts of the repository that the claims
concern:

* `src/slice_manager.py` — the `SliceManager` class: slice registry with
  default SLAs, `check_sla`, `_get_severity`, `get_violation_summary`,
  `clear_violations`.
* `src/controller.py` — the `SlicingController` class: the
  `switch_features_handler` / `_install_meters` / `_install_slice_rules`
  path (rule installation on switch connect) and the
  `flow_stats_reply_handler` (the delta / bandwidth engine).

Python floats are embedded as rationals (`ℚ`); Python dicts keyed by
strings are embedded as association lists with the same `get` defaults as
the source; the three-key metric dicts of the controller (whose keys are
exactly the slice names URLLC / eMBB / mMTC) are embedded as a structure
with one field per slice.
-/
import Mathlib

set_option linter.unusedVariables false

/- Batteries marks the `Rat` arithmetic operations `@[irreducible]`, which
blocks `decide` from evaluating closed rational computations.  Restore the
kernel-honest reducibility (the kernel ignores reducibility attributes
anyway; this only lets the elaborator perform the same unfolding). -/
set_option allowUnsafeReducibility true
attribute [semireducible] Rat.add Rat.sub Rat.mul Rat.inv

namespace SDN5G

/-! ## Slice manager: data model (`src/slice_manager.py`) -/

/-- `SLAStatus` enum (slice_manager.py lines 41-45). -/
inductive SLAStatus where
  | compliant
  | violated
  | unknown
  deriving DecidableEq, Repr

/-- `SLARequirements` dataclass (slice_manager.py lines 48-62). -/
structure SLARequirements where
  min_bandwidth_mbps : ℚ
  max_latency_ms : ℚ
  max_jitter_ms : ℚ
  max_packet_loss_pct : ℚ
  deriving DecidableEq, Repr

/-- `SliceType` enum (slice_manager.py lines 34-38). -/
inductive SliceType where
  | urllc
  | embb
  | mmtc
  deriving DecidableEq, Repr

/-- `SliceConfig` dataclass (slice_manager.py lines 69-89). -/
structure SliceConfig where
  name : String
  slice_type : SliceType
  port : ℕ
  dscp : ℕ
  sla : SLARequirements
  priority : ℕ
  description : String
  deriving DecidableEq, Repr

/-- `SLAViolation` dataclass (slice_manager.py lines 104-122), without the
wall-clock `timestamp` field (its default is `datetime.utcnow()`, outside
the embedding; no claim mentions it). -/
structure SLAViolation where
  slice_name : String
  violation_type : String
  expected_value : ℚ
  actual_value : ℚ
  severity : String
  deriving DecidableEq, Repr

/-- Python `dict.get k default` on an association list (first binding of the
key wins, as in a dict where each key is bound once). -/
def dictGet (l : List (String × ℚ)) (k : String) (dflt : ℚ) : ℚ :=
  match l with
  | [] => dflt
  | (k', v) :: t => if k' = k then v else dictGet t k dflt

/-- Python `dict.get k` (returning `None` on a missing key) on an
association list. -/
def dictFind (l : List (String × SliceConfig)) (k : String) :
    Option SliceConfig :=
  match l with
  | [] => none
  | (k', v) :: t => if k' = k then some v else dictFind t k

/-- The `DEFAULT_SLAS` table (slice_manager.py lines 140-159), as a function
from slice type. -/
def DEFAULT_SLAS : SliceType → SLARequirements
  | SliceType.urllc =>
      { min_bandwidth_mbps := 5, max_latency_ms := 5,
        max_jitter_ms := 1, max_packet_loss_pct := 1/1000 }
  | SliceType.embb =>
      { min_bandwidth_mbps := 50, max_latency_ms := 20,
        max_jitter_ms := 5, max_packet_loss_pct := 1 }
  | SliceType.mmtc =>
      { min_bandwidth_mbps := 1, max_latency_ms := 100,
        max_jitter_ms := 20, max_packet_loss_pct := 1 }

/-- Mutable state of a `SliceManager` instance (slice_manager.py lines
161-176): the slice registry, the violation ledger and the per-slice
violation counters.  (`config_dir` is filesystem plumbing and unused by the
claims.) -/
structure SliceManager where
  slices : List (String × SliceConfig)
  violations : List SLAViolation
  violation_counts : List (String × ℕ)
  deriving DecidableEq, Repr

/-- The URLLC entry installed by `_init_default_slices` (slice_manager.py
lines 182-190). -/
def urllcConfig : SliceConfig :=
  { name := "URLLC", slice_type := SliceType.urllc, port := 5001,
    dscp := 46, sla := DEFAULT_SLAS SliceType.urllc, priority := 100,
    description := "Ultra-Reliable Low-Latency Communication for critical applications" }

/-- The eMBB entry installed by `_init_default_slices` (slice_manager.py
lines 193-201). -/
def embbConfig : SliceConfig :=
  { name := "eMBB", slice_type := SliceType.embb, port := 5002,
    dscp := 34, sla := DEFAULT_SLAS SliceType.embb, priority := 50,
    description := "Enhanced Mobile Broadband for high-throughput applications" }

/-- The mMTC entry installed by `_init_default_slices` (slice_manager.py
lines 204-212). -/
def mmtcConfig : SliceConfig :=
  { name := "mMTC", slice_type := SliceType.mmtc, port := 5003,
    dscp := 10, sla := DEFAULT_SLAS SliceType.mmtc, priority := 10,
    description := "Massive Machine Type Communication for IoT devices" }

/-- `_init_default_slices` (slice_manager.py lines 179-216) composed with
`__init__`: the state of a freshly constructed `SliceManager`. -/
def initSliceManager : SliceManager :=
  { slices := [("URLLC", urllcConfig), ("eMBB", embbConfig), ("mMTC", mmtcConfig)],
    violations := [],
    violation_counts := [("URLLC", 0), ("eMBB", 0), ("mMTC", 0)] }

/-- `SliceManager._get_severity` (slice_manager.py lines 372-405).  The
source's float literals 0.8, 0.5, 1.2, 2.0 are the exact rationals 4/5,
1/2, 6/5, 2 (decimal literals are avoided because `Rat.ofScientific` does
not reduce in the kernel). -/
def get_severity (expected actual : ℚ) (requirement_type : String) : String :=
  if expected = 0 then "critical"
  else if requirement_type = "min" then
    let ratio := actual / expected
    if ratio ≥ 4/5 then "minor"
    else if ratio ≥ 1/2 then "major"
    else "critical"
  else
    let ratio := actual / expected
    if ratio ≤ 6/5 then "minor"
    else if ratio ≤ 2 then "major"
    else "critical"

/-- One entry of the `details` dict produced by `check_sla`: the
`required_min`/`required_max`, `actual` and `compliant` fields. -/
structure DimDetail where
  required : ℚ
  actual : ℚ
  compliant : Bool
  deriving DecidableEq, Repr

/-- The `details` dict of a `check_sla` result (keys `bandwidth`,
`latency`, `jitter`, `packet_loss`). -/
structure CheckDetails where
  bandwidth : DimDetail
  latency : DimDetail
  jitter : DimDetail
  packet_loss : DimDetail
  deriving DecidableEq, Repr

/-- The dict returned by `check_sla` (slice_manager.py lines 366-370).  For
an unknown slice `details` is the error dict `{'error': ...}`; we embed that
case as `details = none`. -/
structure CheckResult where
  status : SLAStatus
  violations : List SLAViolation
  details : Option CheckDetails
  deriving DecidableEq, Repr

/-- `self.violation_counts[slice_name] += n` on the counters association
list.  (In the source the key is always present: `_init_default_slices`
creates one counter per registered slice and no slice is ever added later,
so the Python `KeyError` path is unreachable.) -/
def bumpCount (counts : List (String × ℕ)) (name : String) (n : ℕ) :
    List (String × ℕ) :=
  counts.map (fun p => if p.1 = name then (p.1, p.2 + n) else p)

/-- `SliceManager.check_sla` (slice_manager.py lines 252-370).  Returns the
updated manager state (the source mutates `self.violations` and
`self.violation_counts`) together with the result dict. -/
def check_sla (mgr : SliceManager) (slice_name : String)
    (metrics : List (String × ℚ)) : SliceManager × CheckResult :=
  match dictFind mgr.slices slice_name with
  | none =>
      (mgr, { status := SLAStatus.unknown, violations := [], details := none })
  | some config =>
      let sla := config.sla
      let bandwidth := dictGet metrics "bandwidth_mbps" 0
      let bwViol : List SLAViolation :=
        if bandwidth < sla.min_bandwidth_mbps then
          [{ slice_name := slice_name, violation_type := "bandwidth",
             expected_value := sla.min_bandwidth_mbps,
             actual_value := bandwidth,
             severity := get_severity sla.min_bandwidth_mbps bandwidth "min" }]
        else []
      let latency := dictGet metrics "latency_ms" 0
      let latViol : List SLAViolation :=
        if latency > sla.max_latency_ms then
          [{ slice_name := slice_name, violation_type := "latency",
             expected_value := sla.max_latency_ms,
             actual_value := latency,
             severity := get_severity sla.max_latency_ms latency "max" }]
        else []
      let jitter := dictGet metrics "jitter_ms" 0
      let jitViol : List SLAViolation :=
        if jitter > sla.max_jitter_ms then
          [{ slice_name := slice_name, violation_type := "jitter",
             expected_value := sla.max_jitter_ms,
             actual_value := jitter,
             severity := get_severity sla.max_jitter_ms jitter "max" }]
        else []
      let packet_loss := dictGet metrics "packet_loss_pct" 0
      let lossViol : List SLAViolation :=
        if packet_loss > sla.max_packet_loss_pct then
          [{ slice_name := slice_name, violation_type := "packet_loss",
             expected_value := sla.max_packet_loss_pct,
             actual_value := packet_loss,
             severity := get_severity sla.max_packet_loss_pct packet_loss "max" }]
        else []
      let violations := bwViol ++ latViol ++ jitViol ++ lossViol
      let details : CheckDetails :=
        { bandwidth :=
            { required := sla.min_bandwidth_mbps, actual := bandwidth,
              compliant := decide (bandwidth ≥ sla.min_bandwidth_mbps) },
          latency :=
            { required := sla.max_latency_ms, actual := latency,
              compliant := decide (latency ≤ sla.max_latency_ms) },
          jitter :=
            { required := sla.max_jitter_ms, actual := jitter,
              compliant := decide (jitter ≤ sla.max_jitter_ms) },
          packet_loss :=
            { required := sla.max_packet_loss_pct, actual := packet_loss,
              compliant := decide (packet_loss ≤ sla.max_packet_loss_pct) } }
      let mgr' :=
        if violations.isEmpty then mgr
        else
          { mgr with
            violations := mgr.violations ++ violations,
            violation_counts :=
              bumpCount mgr.violation_counts slice_name violations.length }
      let status :=
        if violations.isEmpty then SLAStatus.compliant else SLAStatus.violated
      (mgr', { status := status, violations := violations,
               details := some details })

/-- Severity histogram used inside `get_violation_summary`. -/
structure SeverityDist where
  minor : ℕ
  major : ℕ
  critical : ℕ
  deriving DecidableEq, Repr

/-- `summary['severity_distribution'][v.severity] += 1` (slice_manager.py
line 430); `check_sla` only ever produces these three severity strings, so
the Python `KeyError` path is unreachable. -/
def bumpSeverity (d : SeverityDist) (sev : String) : SeverityDist :=
  if sev = "minor" then { d with minor := d.minor + 1 }
  else if sev = "major" then { d with major := d.major + 1 }
  else if sev = "critical" then { d with critical := d.critical + 1 }
  else d

/-- `violations_by_type[vtype] = violations_by_type.get(vtype, 0) + 1`
(slice_manager.py lines 428-429) on an association list. -/
def bumpType (l : List (String × ℕ)) (t : String) : List (String × ℕ) :=
  match l with
  | [] => [(t, 1)]
  | (k, v) :: rest => if k = t then (k, v + 1) :: rest else (k, v) :: bumpType rest t

/-- The summary dict returned by `get_violation_summary`. -/
structure ViolationSummary where
  total_violations : ℕ
  violations_by_slice : List (String × ℕ)
  violations_by_type : List (String × ℕ)
  severity_distribution : SeverityDist
  deriving DecidableEq, Repr

/-- `SliceManager.get_violation_summary` (slice_manager.py lines 407-432). -/
def get_violation_summary (mgr : SliceManager) : ViolationSummary :=
  { total_violations := mgr.violations.length,
    violations_by_slice := mgr.violation_counts,
    violations_by_type :=
      mgr.violations.foldl (fun acc v => bumpType acc v.violation_type) [],
    severity_distribution :=
      mgr.violations.foldl (fun acc v => bumpSeverity acc v.severity)
        { minor := 0, major := 0, critical := 0 } }

/-- `SliceManager.clear_violations` (slice_manager.py lines 434-439). -/
def clear_violations (mgr : SliceManager) : SliceManager :=
  { mgr with
    violations := [],
    violation_counts := mgr.violation_counts.map (fun p => (p.1, 0)) }

/-! ## Controller: data model (`src/controller.py`)

The controller's `metrics`, `slice_stats` and `prev_stats` dicts have
exactly the three slice names as keys (controller.py lines 87-91 and
391-395), so they are embedded as a structure with one field per slice. -/

/-- The three slice names (the keys of the controller's per-slice dicts). -/
inductive SliceName where
  | urllc
  | embb
  | mmtc
  deriving DecidableEq, Repr

/-- A dict whose keys are exactly the three slice names. -/
structure PerSlice (α : Type) where
  urllc : α
  embb : α
  mmtc : α
  deriving DecidableEq, Repr

/-- Dict lookup on a three-key per-slice dict. -/
def PerSlice.get {α : Type} (p : PerSlice α) : SliceName → α
  | SliceName.urllc => p.urllc
  | SliceName.embb => p.embb
  | SliceName.mmtc => p.mmtc

/-- Dict assignment on a three-key per-slice dict. -/
def PerSlice.set {α : Type} (p : PerSlice α) (s : SliceName) (a : α) :
    PerSlice α :=
  match s with
  | SliceName.urllc => { p with urllc := a }
  | SliceName.embb => { p with embb := a }
  | SliceName.mmtc => { p with mmtc := a }

/-- One entry of `SlicingController.SLICE_CONFIG` (controller.py lines
53-75). -/
structure CtrlSliceConf where
  name : SliceName
  dscp : ℕ
  meter_id : ℕ
  rate_kbps : ℕ
  priority : ℕ
  deriving DecidableEq, Repr

/-- `SLICE_CONFIG` as a lookup by UDP port (controller.py lines 53-75). -/
def SLICE_CONFIG : ℕ → Option CtrlSliceConf
  | 5001 => some { name := SliceName.urllc, dscp := 46, meter_id := 1,
                   rate_kbps := 10000, priority := 100 }
  | 5002 => some { name := SliceName.embb, dscp := 34, meter_id := 2,
                   rate_kbps := 100000, priority := 50 }
  | 5003 => some { name := SliceName.mmtc, dscp := 10, meter_id := 3,
                   rate_kbps := 5000, priority := 10 }
  | _ => none

/-- The iteration order of the `SLICE_CONFIG` dict (insertion order of its
literal). -/
def SLICE_PORTS : List ℕ := [5001, 5002, 5003]

/-- One flow-stats entry of a stats reply body: the `udp_dst` field of its
match (absent for non-slice flows) and the cumulative counters. -/
structure FlowStat where
  udp_dst : Option ℕ
  byte_count : ℕ
  packet_count : ℕ
  deriving DecidableEq, Repr

/-- One value of the `slice_stats` dict (controller.py lines 391-395). -/
structure SliceBP where
  bytes : ℕ
  packets : ℕ
  deriving DecidableEq, Repr

/-- One value of the `self.metrics` dict (controller.py lines 87-91 and
420-424). -/
structure Metric where
  bytes : ℕ
  packets : ℕ
  bandwidth_mbps : ℚ
  deriving DecidableEq, Repr

/-- The mutable state of `SlicingController` touched by the stats path
(controller.py lines 87-95): `metrics`, `prev_stats` (initially the empty
dict, hence `none`; after any stats reply a full three-key dict) and
`prev_time`. -/
structure ControllerState where
  metrics : PerSlice Metric
  prev_stats : Option (PerSlice SliceBP)
  prev_time : ℚ
  deriving DecidableEq, Repr

/-- `SlicingController.__init__` (controller.py lines 77-105) restricted to
the stats-path state; `t0` is the `time.time()` value captured at
construction. -/
def initControllerState (t0 : ℚ) : ControllerState :=
  { metrics :=
      { urllc := { bytes := 0, packets := 0, bandwidth_mbps := 0 },
        embb := { bytes := 0, packets := 0, bandwidth_mbps := 0 },
        mmtc := { bytes := 0, packets := 0, bandwidth_mbps := 0 } },
    prev_stats := none,
    prev_time := t0 }

/-- The aggregation loop of `flow_stats_reply_handler` (controller.py lines
391-404): sum byte and packet counters per slice over the reply body. -/
def aggStats (body : List FlowStat) : PerSlice SliceBP :=
  body.foldl
    (fun acc stat =>
      match stat.udp_dst with
      | none => acc
      | some p =>
        match SLICE_CONFIG p with
        | none => acc
        | some conf =>
          let cur := acc.get conf.name
          acc.set conf.name
            { bytes := cur.bytes + stat.byte_count,
              packets := cur.packets + stat.packet_count })
    { urllc := { bytes := 0, packets := 0 },
      embb := { bytes := 0, packets := 0 },
      mmtc := { bytes := 0, packets := 0 } }

/-- `self.prev_stats.get(slice_name, {}).get('bytes', 0)` (controller.py
line 409). -/
def prevBytesOf (ps : Option (PerSlice SliceBP)) (s : SliceName) : ℕ :=
  match ps with
  | none => 0
  | some p => (p.get s).bytes

/-- Round half to even to an integer, Python's `round(x)` on an exact
value. -/
def roundHalfEven (x : ℚ) : ℤ :=
  let f := ⌊x⌋
  let r := x - f
  if r < 1/2 then f
  else if r > 1/2 then f + 1
  else if Even f then f else f + 1

/-- Python's `round(x, 3)`. -/
def round3 (x : ℚ) : ℚ :=
  (roundHalfEven (x * 1000) : ℚ) / 1000

/-- The bandwidth computation of `flow_stats_reply_handler` (controller.py
lines 411-417): `max(0, byte_delta * 8 / (time_delta * 1000000))` when
`time_delta > 0`, else `0`. -/
def computeBandwidth (time_delta : ℚ) (current_bytes prev_bytes : ℕ) : ℚ :=
  if time_delta > 0 then
    max 0 (((current_bytes : ℚ) - (prev_bytes : ℚ)) * 8 / (time_delta * 1000000))
  else 0

/-- `SlicingController.flow_stats_reply_handler` (controller.py lines
373-437).  `dpid` is the datapath id of the reply's sender (used by the
source only for logging), `current_time` the `time.time()` value at entry.
The metric-export and log side effects are outside the embedded state. -/
def flow_stats_reply_handler (st : ControllerState) (dpid : ℕ)
    (body : List FlowStat) (current_time : ℚ) : ControllerState :=
  let time_delta := current_time - st.prev_time
  let slice_stats := aggStats body
  let upd := fun (m : PerSlice Metric) (s : SliceName) =>
    let stats := slice_stats.get s
    let bw := computeBandwidth time_delta stats.bytes (prevBytesOf st.prev_stats s)
    m.set s { bytes := stats.bytes, packets := stats.packets,
              bandwidth_mbps := round3 bw }
  let metrics :=
    upd (upd (upd st.metrics SliceName.urllc) SliceName.embb) SliceName.mmtc
  { metrics := metrics,
    prev_stats := some slice_stats,
    prev_time := current_time }

/-- One flow-stats-reply event: sender datapath, reply body, and the
`time.time()` value when the handler runs. -/
structure StatsReplyEvent where
  dpid : ℕ
  body : List FlowStat
  time : ℚ
  deriving DecidableEq, Repr

/-- Run a freshly constructed controller (construction time `t0`) over a
sequence of flow-stats-reply events. -/
def runStatsReplies (t0 : ℚ) (events : List StatsReplyEvent) :
    ControllerState :=
  events.foldl
    (fun st e => flow_stats_reply_handler st e.dpid e.body e.time)
    (initControllerState t0)

/-! ## Controller: switch-connect path (`src/controller.py`) -/

/-- Match criteria occurring in the connect-path FlowMods: the empty match
of the table-miss rule, and the slice-classification match
`eth_type=0x0800, ip_proto=17, udp_dst=port` (controller.py lines 156 and
217-221). -/
inductive MatchK where
  | matchAll
  | matchSlice (udp_dst : ℕ)
  deriving DecidableEq, Repr

/-- OpenFlow actions occurring in the connect-path messages. -/
inductive Act where
  | outputController
  | setDscp (d : ℕ)
  deriving DecidableEq, Repr

/-- OpenFlow instructions occurring in the connect-path FlowMods. -/
inductive Instr where
  | meter (meter_id : ℕ)
  | applyActions (acts : List Act)
  | gotoTable (tid : ℕ)
  deriving DecidableEq, Repr

/-- A message the controller sends to a switch on the connect path: a
FlowMod (OFPFC_ADD) or a MeterMod (OFPMC_ADD). -/
inductive Msg where
  | flowMod (table_id priority idle_timeout hard_timeout : ℕ)
      (mtch : MatchK) (instructions : List Instr)
  | meterMod (meter_id rate_kbps burst_size : ℕ)
  deriving DecidableEq, Repr

/-- The table-miss FlowMod sent by `switch_features_handler` via
`_add_flow` (controller.py lines 154-159 and 251-281). -/
def tableMissMsg : Msg :=
  Msg.flowMod 0 0 0 0 MatchK.matchAll [Instr.applyActions [Act.outputController]]

/-- The MeterMods sent by `_install_meters` (controller.py lines 168-202),
in `SLICE_CONFIG` iteration order; `burst_size = rate_kbps // 10`. -/
def meterMsgs : List Msg :=
  SLICE_PORTS.filterMap fun port =>
    (SLICE_CONFIG port).map fun c =>
      Msg.meterMod c.meter_id c.rate_kbps (c.rate_kbps / 10)

/-- The slice-classification FlowMods sent by `_install_slice_rules`
(controller.py lines 204-249), in `SLICE_CONFIG` iteration order. -/
def sliceRuleMsgs : List Msg :=
  SLICE_PORTS.filterMap fun port =>
    (SLICE_CONFIG port).map fun c =>
      Msg.flowMod 0 c.priority 0 0 (MatchK.matchSlice port)
        [Instr.meter c.meter_id,
         Instr.applyActions [Act.setDscp c.dscp],
         Instr.gotoTable 1]

/-- `SlicingController.switch_features_handler` (controller.py lines
133-166): registers the datapath in `self.datapaths` (dict assignment:
re-registering an already-known id changes nothing in the key set) and
sends the table-miss FlowMod, the three MeterMods and the three
slice-classification FlowMods.  Returns the updated key set of
`self.datapaths` and the list of messages sent, in order. -/
def switch_features_handler (datapaths : List ℕ) (dpid : ℕ) :
    List ℕ × List Msg :=
  let datapaths' := if dpid ∈ datapaths then datapaths else datapaths ++ [dpid]
  (datapaths', tableMissMsg :: meterMsgs ++ sliceRuleMsgs)

/-- Predicate selecting the slice-classification FlowMods among the
connect-path messages (a FlowMod whose match is a `udp_dst` match). -/
def isSliceRuleMsg : Msg → Bool
  | Msg.flowMod _ _ _ _ (MatchK.matchSlice _) _ => true
  | _ => false

/-- An entry of a switch's flow table. -/
structure FlowEntry where
  table_id : ℕ
  priority : ℕ
  idle_timeout : ℕ
  hard_timeout : ℕ
  mtch : MatchK
  instructions : List Instr
  deriving DecidableEq, Repr

/-- A switch's flow and meter tables.  Modelled from the spec: the switch
itself is an external collaborator ("switch protocol boundary"), not code
of this repository; per OpenFlow 1.3 a FlowMod ADD whose table id, priority
and match equal an existing entry's overwrites that entry (so "re-installing
identical rules must not create duplicates"), and a MeterMod ADD for an
already-existing meter id is refused, leaving the existing meter. -/
structure SwitchTables where
  flows : List FlowEntry
  meters : List (ℕ × ℕ × ℕ)
  deriving DecidableEq, Repr

/-- Whether two flow entries have the same identity (table id, priority,
match) for FlowMod ADD overwrite purposes. -/
def FlowEntry.sameKey (a b : FlowEntry) : Bool :=
  a.table_id = b.table_id ∧ a.priority = b.priority ∧ a.mtch = b.mtch

/-- FlowMod ADD semantics on a flow table: overwrite the entry with the
same (table id, priority, match) if one exists, else append. -/
def addFlowEntry (flows : List FlowEntry) (e : FlowEntry) : List FlowEntry :=
  if flows.any (fun f => f.sameKey e) then
    flows.map (fun f => if f.sameKey e then e else f)
  else flows ++ [e]

/-- MeterMod ADD semantics on a meter table: adding an existing meter id is
refused (OFPMMFC_METER_EXISTS), leaving the table unchanged. -/
def addMeter (meters : List (ℕ × ℕ × ℕ)) (m : ℕ × ℕ × ℕ) :
    List (ℕ × ℕ × ℕ) :=
  if meters.any (fun x => x.1 = m.1) then meters else meters ++ [m]

/-- Apply one controller message to a switch's tables. -/
def applyMsg (sw : SwitchTables) : Msg → SwitchTables
  | Msg.flowMod t p i h m instr =>
      { sw with flows := addFlowEntry sw.flows ⟨t, p, i, h, m, instr⟩ }
  | Msg.meterMod id rate burst =>
      { sw with meters := addMeter sw.meters (id, rate, burst) }

/-- Apply a message sequence to a switch's tables. -/
def applyMsgs (sw : SwitchTables) (msgs : List Msg) : SwitchTables :=
  msgs.foldl applyMsg sw

/-- A switch with empty flow and meter tables (its state when it first
connects). -/
def emptySwitch : SwitchTables := { flows := [], meters := [] }

/-- Predicate selecting slice-classification entries in a flow table (an
entry whose match is a `udp_dst` match). -/
def isSliceRuleEntry (e : FlowEntry) : Bool :=
  match e.mtch with
  | MatchK.matchSlice _ => true
  | _ => false

/-! ## Theorems: SLA evaluator (`src/slice_manager.py`) -/

/-- C1: For the slice URLLC (thresholds min_bandwidth_mbps=5,
max_latency_ms=5, max_jitter_ms=1, max_packet_loss_pct=0.001), calling
`check_sla` with metrics bandwidth=2.0, latency=10.0, jitter=2.0,
packet_loss=0.0 returns status `violated` with exactly 3 violations, whose
types are bandwidth, latency and jitter, and no packet_loss violation. -/
theorem urllc_scenario2_three_violations :
    (check_sla initSliceManager "URLLC"
        [("bandwidth_mbps", 2), ("latency_ms", 10), ("jitter_ms", 2),
         ("packet_loss_pct", 0)]).2.status = SLAStatus.violated ∧
    (check_sla initSliceManager "URLLC"
        [("bandwidth_mbps", 2), ("latency_ms", 10), ("jitter_ms", 2),
         ("packet_loss_pct", 0)]).2.violations.map SLAViolation.violation_type
      = ["bandwidth", "latency", "jitter"] ∧
    "packet_loss" ∉ (check_sla initSliceManager "URLLC"
        [("bandwidth_mbps", 2), ("latency_ms", 10), ("jitter_ms", 2),
         ("packet_loss_pct", 0)]).2.violations.map SLAViolation.violation_type := by
  decide

/-- C2: For every violation with expected > 0, the severity follows the
ratio test: for a minimum-bound dimension, ratio = actual/expected gives
minor when ratio ≥ 0.8, major when 0.5 ≤ ratio < 0.8, critical when
ratio < 0.5; for a maximum-bound dimension, minor when ratio ≤ 1.2, major
when 1.2 < ratio ≤ 2.0, critical when ratio > 2.0; and whenever
expected = 0 the severity is critical regardless of actual. -/
theorem get_severity_ratio_test (e a : ℚ) (h : 0 < e) :
    ((get_severity e a "min" = "minor" ↔ 4/5 ≤ a / e) ∧
     (get_severity e a "min" = "major" ↔ 1/2 ≤ a / e ∧ a / e < 4/5) ∧
     (get_severity e a "min" = "critical" ↔ a / e < 1/2)) ∧
    ((get_severity e a "max" = "minor" ↔ a / e ≤ 6/5) ∧
     (get_severity e a "max" = "major" ↔ 6/5 < a / e ∧ a / e ≤ 2) ∧
     (get_severity e a "max" = "critical" ↔ 2 < a / e)) ∧
    (∀ a' : ℚ, get_severity 0 a' "min" = "critical" ∧
               get_severity 0 a' "max" = "critical") := by
  have hne : e ≠ 0 := ne_of_gt h
  have hmin : get_severity e a "min"
      = if a / e ≥ 4/5 then "minor"
        else if a / e ≥ 1/2 then "major" else "critical" := by
    unfold get_severity
    rw [if_neg hne, if_pos rfl]
  have hmax : get_severity e a "max"
      = if a / e ≤ 6/5 then "minor"
        else if a / e ≤ 2 then "major" else "critical" := by
    unfold get_severity
    rw [if_neg hne, if_neg (by decide : ¬("max" = "min"))]
  rw [hmin, hmax]
  refine ⟨⟨?_, ?_, ?_⟩, ⟨?_, ?_, ?_⟩,
    fun a' => ⟨by simp [get_severity], by simp [get_severity]⟩⟩
  · split_ifs with h1 h2
    · exact iff_of_true rfl h1
    · exact iff_of_false (by decide) h1
    · exact iff_of_false (by decide) h1
  · split_ifs with h1 h2
    · exact iff_of_false (by decide) (fun hc => absurd h1 (not_le.mpr hc.2))
    · exact iff_of_true rfl ⟨h2, not_le.mp h1⟩
    · exact iff_of_false (by decide) (fun hc => h2 hc.1)
  · split_ifs with h1 h2
    · exact iff_of_false (by decide)
        (fun hc => absurd h1 (not_le.mpr (by linarith)))
    · exact iff_of_false (by decide) (fun hc => absurd h2 (not_le.mpr hc))
    · exact iff_of_true rfl (not_le.mp h2)
  · split_ifs with h1 h2
    · exact iff_of_true rfl h1
    · exact iff_of_false (by decide) h1
    · exact iff_of_false (by decide) h1
  · split_ifs with h1 h2
    · exact iff_of_false (by decide) (fun hc => absurd h1 (not_le.mpr hc.1))
    · exact iff_of_true rfl ⟨not_le.mp h1, h2⟩
    · exact iff_of_false (by decide) (fun hc => h2 hc.2)
  · split_ifs with h1 h2
    · exact iff_of_false (by decide)
        (fun hc => absurd hc (not_lt.mpr (by linarith)))
    · exact iff_of_false (by decide) (fun hc => absurd hc (not_lt.mpr h2))
    · exact iff_of_true rfl (not_le.mp h2)

/-- Witness for C2: at expected 5, actual 2 on a minimum-bound dimension
the ratio is 2/5 < 1/2, so the severity is critical. -/
theorem get_severity_ratio_test_witness :
    get_severity 5 2 "min" = "critical" :=
  ((get_severity_ratio_test 5 2 (by norm_num)).1.2.2).mpr (by norm_num)

/-- C7: Calling `check_sla` with a slice name not in the registry returns
status `unknown` with an empty violations list, leaves the manager state
(violation ledger and per-slice counters) unchanged, and `unknown` is
distinct from `compliant`. -/
theorem check_sla_unknown_slice (mgr : SliceManager) (slice_name : String)
    (metrics : List (String × ℚ)) (h : dictFind mgr.slices slice_name = none) :
    check_sla mgr slice_name metrics =
      (mgr, { status := SLAStatus.unknown, violations := [], details := none }) ∧
    SLAStatus.unknown ≠ SLAStatus.compliant := by
  refine ⟨?_, by decide⟩
  unfold check_sla
  rw [h]

/-- Witness for C7: checking the unregistered slice name "V2X" on a fresh
manager returns `unknown` with no violations and an unchanged manager. -/
theorem check_sla_unknown_slice_witness :
    check_sla initSliceManager "V2X" [] =
      (initSliceManager,
       { status := SLAStatus.unknown, violations := [], details := none }) ∧
    SLAStatus.unknown ≠ SLAStatus.compliant :=
  check_sla_unknown_slice initSliceManager "V2X" [] (by decide)

/-- C8: For the minimum-bound bandwidth dimension, a measured value exactly
equal to the threshold is compliant (no bandwidth violation, and the
details mark bandwidth compliant), while a value strictly below the
threshold produces exactly one bandwidth violation. -/
theorem bandwidth_boundary (mgr : SliceManager) (slice_name : String)
    (config : SliceConfig) (metrics : List (String × ℚ))
    (h : dictFind mgr.slices slice_name = some config) :
    (dictGet metrics "bandwidth_mbps" 0 = config.sla.min_bandwidth_mbps →
      (check_sla mgr slice_name metrics).2.violations.countP
          (fun v => v.violation_type == "bandwidth") = 0 ∧
      Option.map (fun d => d.bandwidth.compliant)
          (check_sla mgr slice_name metrics).2.details = some true) ∧
    (dictGet metrics "bandwidth_mbps" 0 < config.sla.min_bandwidth_mbps →
      (check_sla mgr slice_name metrics).2.violations.countP
          (fun v => v.violation_type == "bandwidth") = 1) := by
  unfold check_sla
  rw [h]
  dsimp only
  constructor
  · intro heq
    rw [if_neg (not_lt.mpr (le_of_eq heq.symm))]
    constructor
    · split_ifs <;> rfl
    · simp only [Option.map_some']
      simp [decide_eq_true_eq, heq]
  · intro hlt
    rw [if_pos hlt]
    split_ifs <;> rfl

/-- Witness for C8: on URLLC (min bandwidth 5), bandwidth exactly 5 yields
no bandwidth violation and a compliant detail, bandwidth 2 yields exactly
one bandwidth violation. -/
theorem bandwidth_boundary_witness :
    ((check_sla initSliceManager "URLLC" [("bandwidth_mbps", 5)]).2.violations.countP
        (fun v => v.violation_type == "bandwidth") = 0 ∧
     Option.map (fun d => d.bandwidth.compliant)
        (check_sla initSliceManager "URLLC" [("bandwidth_mbps", 5)]).2.details = some true) ∧
    (check_sla initSliceManager "URLLC" [("bandwidth_mbps", 2)]).2.violations.countP
        (fun v => v.violation_type == "bandwidth") = 1 :=
  ⟨(bandwidth_boundary initSliceManager "URLLC" urllcConfig
      [("bandwidth_mbps", 5)] (by decide)).1 (by decide),
   (bandwidth_boundary initSliceManager "URLLC" urllcConfig
      [("bandwidth_mbps", 2)] (by decide)).2 (by decide)⟩

/-- C9: For every state of the `SliceManager`, `clear_violations` followed
by `get_violation_summary` yields total_violations = 0 and every per-slice
violation count equal to 0. -/
theorem clear_violations_summary_zero (mgr : SliceManager) :
    (get_violation_summary (clear_violations mgr)).total_violations = 0 ∧
    (get_violation_summary (clear_violations mgr)).violations_by_slice.all
      (fun p => p.2 == 0) = true := by
  constructor
  · rfl
  · simp [get_violation_summary, clear_violations, List.all_eq_true]

/-- C10: Metric keys absent from the metrics dict default to 0: for every
registered slice with strictly positive min_bandwidth_mbps, `check_sla`
with an empty metrics dict returns `violated` with exactly one violation —
type bandwidth, actual 0, severity critical — while latency, jitter and
packet loss (defaulting to 0) are reported compliant in the details. -/
theorem empty_metrics_single_bandwidth_violation (slice_name : String)
    (config : SliceConfig)
    (h : dictFind initSliceManager.slices slice_name = some config)
    (hmin : 0 < config.sla.min_bandwidth_mbps) :
    (check_sla initSliceManager slice_name []).2.status = SLAStatus.violated ∧
    (check_sla initSliceManager slice_name []).2.violations =
      [{ slice_name := slice_name, violation_type := "bandwidth",
         expected_value := config.sla.min_bandwidth_mbps, actual_value := 0,
         severity := "critical" }] ∧
    Option.map
        (fun d => (d.latency.compliant, d.jitter.compliant, d.packet_loss.compliant))
        (check_sla initSliceManager slice_name []).2.details
      = some (true, true, true) := by
  simp only [initSliceManager, dictFind] at h
  split at h
  · rename_i h1
    subst h1
    obtain rfl : urllcConfig = config := Option.some.inj h
    decide
  · split at h
    · rename_i h1 h2
      subst h2
      obtain rfl : embbConfig = config := Option.some.inj h
      decide
    · split at h
      · rename_i h1 h2 h3
        subst h3
        obtain rfl : mmtcConfig = config := Option.some.inj h
        decide
      · exact absurd h (by simp)

/-- Witness for C10: on URLLC, `check_sla` with an empty metrics dict
yields exactly the single critical bandwidth violation, with the three
maximum-bound dimensions compliant. -/
theorem empty_metrics_single_bandwidth_violation_witness :
    (check_sla initSliceManager "URLLC" []).2.status = SLAStatus.violated ∧
    (check_sla initSliceManager "URLLC" []).2.violations =
      [{ slice_name := "URLLC", violation_type := "bandwidth",
         expected_value := urllcConfig.sla.min_bandwidth_mbps, actual_value := 0,
         severity := "critical" }] ∧
    Option.map
        (fun d => (d.latency.compliant, d.jitter.compliant, d.packet_loss.compliant))
        (check_sla initSliceManager "URLLC" []).2.details
      = some (true, true, true) :=
  empty_metrics_single_bandwidth_violation "URLLC" urllcConfig (by decide) (by decide)

/-! ## Theorems: delta / bandwidth engine (`src/controller.py`) -/

/-- C3 counterexample: on the very first counter observation (a freshly
constructed controller, whose `prev_stats` dict is empty) a stats reply
with 125000 cumulative bytes for the URLLC slice after 1 second yields a
reported bandwidth of 1 Mbps, not 0 — the engine treats the missing
previous sample as 0 bytes and reports a full-rate bandwidth on the first
sample. -/
theorem first_sample_reports_nonzero_bandwidth :
    (initControllerState 0).prev_stats = none ∧
    ((flow_stats_reply_handler (initControllerState 0) 1
        [{ udp_dst := some 5001, byte_count := 125000, packet_count := 100 }]
        1).metrics.get SliceName.urllc).bandwidth_mbps = 1 ∧
    (1 : ℚ) ≠ 0 := by
  decide

/-- C3 amended: on the very first counter observation (no previous sample
stored), `previousBytes` defaults to 0, so the engine reports
`round(max(0, currentBytes * 8 / (timeDelta * 10^6)), 3)` — which is 0
only when the observed cumulative byte count is 0 (or the time delta is
non-positive), not on every first observation. -/
theorem first_sample_bandwidth_formula (st : ControllerState) (dpid : ℕ)
    (body : List FlowStat) (t : ℚ) (s : SliceName)
    (hprev : st.prev_stats = none) (ht : 0 < t - st.prev_time) :
    ((flow_stats_reply_handler st dpid body t).metrics.get s).bandwidth_mbps =
      round3 (max 0 ((((aggStats body).get s).bytes : ℚ) * 8 /
        ((t - st.prev_time) * 1000000))) := by
  have ht' : st.prev_time < t := by linarith
  cases s <;>
    simp [flow_stats_reply_handler, PerSlice.get, PerSlice.set,
      computeBandwidth, prevBytesOf, hprev, ht']

/-- Witness for C3's amended theorem: the first observation of 125000
bytes after 1 second is reported as `round3 (max 0 (125000*8/10^6))`
(= 1 Mbps). -/
theorem first_sample_bandwidth_formula_witness :
    ((flow_stats_reply_handler (initControllerState 0) 1
        [{ udp_dst := some 5001, byte_count := 125000, packet_count := 100 }]
        1).metrics.get SliceName.urllc).bandwidth_mbps =
      round3 (max 0 ((((aggStats
          [{ udp_dst := some 5001, byte_count := 125000, packet_count := 100 }]).get
          SliceName.urllc).bytes : ℚ) * 8 /
        ((1 - (initControllerState 0).prev_time) * 1000000))) :=
  first_sample_bandwidth_formula (initControllerState 0) 1
    [{ udp_dst := some 5001, byte_count := 125000, packet_count := 100 }]
    1 SliceName.urllc rfl (by decide)

/-- C5 counterexample: the previous-sample state is keyed by slice name
only and the poll clock is global, not per switch.  Run: reply from
datapath 1 at t=10 with 1000000 URLLC bytes, then a reply from datapath 2
at t=11 with no slice flows.  Afterwards the stored previous byte count
for URLLC is 0, not the most recent (URLLC, datapath 1) sample 1000000;
and a further reply from datapath 1 at t=15 with 2000000 bytes is computed
with time delta 15-11=4 and previous bytes 0, giving 4 Mbps — not the
8/5 Mbps that the per-(slice, datapath) reading (delta 5 s since datapath
1's previous poll, previous bytes 1000000) would give. -/
theorem prev_stats_not_per_datapath :
    prevBytesOf (runStatsReplies 0
        [⟨1, [{ udp_dst := some 5001, byte_count := 1000000, packet_count := 100 }], 10⟩,
         ⟨2, [], 11⟩]).prev_stats SliceName.urllc = 0 ∧
    (0 : ℕ) ≠ 1000000 ∧
    ((runStatsReplies 0
        [⟨1, [{ udp_dst := some 5001, byte_count := 1000000, packet_count := 100 }], 10⟩,
         ⟨2, [], 11⟩,
         ⟨1, [{ udp_dst := some 5001, byte_count := 2000000, packet_count := 200 }], 15⟩]).metrics.get
        SliceName.urllc).bandwidth_mbps = 4 ∧
    (4 : ℚ) ≠ ((2000000 - 1000000) * 8) / (5 * 1000000) := by
  decide

/-- C5 amended: after every stats reply, `prev_stats` holds exactly one
sample per slice name — the per-slice aggregate of the most recent reply
from any switch, whatever its datapath id — and the time delta used for
the bandwidth computation is the wall-clock time since the previous reply
from any switch (a single global `prev_time`), not since the previous
poll of the same switch. -/
theorem delta_engine_global_prev_state (st : ControllerState) (d1 d2 : ℕ)
    (b1 b2 : List FlowStat) (t1 t2 : ℚ) (s : SliceName) :
    (flow_stats_reply_handler (flow_stats_reply_handler st d1 b1 t1) d2 b2 t2).prev_stats
        = some (aggStats b2) ∧
    (flow_stats_reply_handler (flow_stats_reply_handler st d1 b1 t1) d2 b2 t2).prev_time
        = t2 ∧
    ((flow_stats_reply_handler (flow_stats_reply_handler st d1 b1 t1) d2 b2 t2).metrics.get
        s).bandwidth_mbps
      = round3 (computeBandwidth (t2 - t1) ((aggStats b2).get s).bytes
          ((aggStats b1).get s).bytes) := by
  refine ⟨rfl, rfl, ?_⟩
  cases s <;> rfl

/-- Nonnegativity of the clamped bandwidth computation (controller.py
lines 411-417). -/
theorem computeBandwidth_nonneg (td : ℚ) (cb pb : ℕ) :
    0 ≤ computeBandwidth td cb pb := by
  unfold computeBandwidth
  split_ifs
  · exact le_max_left 0 _
  · exact le_refl 0

/-- Round-half-to-even of a nonnegative rational is nonnegative. -/
theorem roundHalfEven_nonneg (x : ℚ) (hx : 0 ≤ x) : 0 ≤ roundHalfEven x := by
  unfold roundHalfEven
  have hf : (0 : ℤ) ≤ ⌊x⌋ := Int.floor_nonneg.mpr hx
  dsimp only
  split_ifs <;> linarith

/-- Python `round(x, 3)` of a nonnegative value is nonnegative. -/
theorem round3_nonneg (x : ℚ) (hx : 0 ≤ x) : 0 ≤ round3 x := by
  unfold round3
  have h1 : (0 : ℤ) ≤ roundHalfEven (x * 1000) :=
    roundHalfEven_nonneg _ (by positivity)
  have h2 : (0 : ℚ) ≤ (roundHalfEven (x * 1000) : ℚ) := by exact_mod_cast h1
  exact div_nonneg h2 (by norm_num)

/-- A single stats reply always leaves every slice's reported bandwidth
nonnegative. -/
theorem handler_bandwidth_nonneg (st : ControllerState) (dpid : ℕ)
    (body : List FlowStat) (t : ℚ) (s : SliceName) :
    0 ≤ ((flow_stats_reply_handler st dpid body t).metrics.get s).bandwidth_mbps := by
  cases s <;>
    exact round3_nonneg _ (computeBandwidth_nonneg _ _ _)

/-- C6: For every input counter sequence — including counter resets (the
current byte count below the previous one) and the first-ever sample —
the computed bandwidth_mbps is never negative. -/
theorem bandwidth_never_negative (t0 : ℚ) (events : List StatsReplyEvent)
    (s : SliceName) :
    0 ≤ ((runStatsReplies t0 events).metrics.get s).bandwidth_mbps := by
  unfold runStatsReplies
  have key : ∀ (evs : List StatsReplyEvent) (st : ControllerState),
      (∀ s', 0 ≤ (st.metrics.get s').bandwidth_mbps) →
      ∀ s', 0 ≤ ((evs.foldl
          (fun st e => flow_stats_reply_handler st e.dpid e.body e.time)
          st).metrics.get s').bandwidth_mbps := by
    intro evs
    induction evs with
    | nil => intro st hst s'; exact hst s'
    | cons e es ih =>
        intro st hst s'
        exact ih _ (fun s'' => handler_bandwidth_nonneg st e.dpid e.body e.time s'') s'
  exact key events _ (fun s' => by cases s' <;> exact le_refl 0) s

/-! ## Theorems: switch-connect idempotency (`src/controller.py`) -/

/-- C4 counterexample: there is no installed-rules tracking in the
controller — processing a second, identical switch-connect event for the
same datapath re-sends exactly the same message list as the first,
including all 3 slice-classification FlowMods (rather than skipping
already-installed rules via an `installedRules` set, which does not exist
in the controller state). -/
theorem second_connect_resends_all_rules :
    (switch_features_handler (switch_features_handler [] 1).1 1).2
      = (switch_features_handler [] 1).2 ∧
    ((switch_features_handler (switch_features_handler [] 1).1 1).2.filter
        isSliceRuleMsg).length = 3 := by
  decide

/-- C4 amended: a second identical switch-connect event re-sends the same
rule-install messages (the controller tracks no installed-rules set); the
switch's flow table nevertheless ends up without duplicates because a
FlowMod ADD with identical table, priority and match overwrites the
existing entry — after the second connect the tables equal those after
the first, with exactly 3 slice-classification entries. -/
theorem double_connect_table_idempotent :
    (switch_features_handler (switch_features_handler [] 1).1 1).2
      = (switch_features_handler [] 1).2 ∧
    applyMsgs (applyMsgs emptySwitch (switch_features_handler [] 1).2)
        (switch_features_handler (switch_features_handler [] 1).1 1).2
      = applyMsgs emptySwitch (switch_features_handler [] 1).2 ∧
    ((applyMsgs emptySwitch (switch_features_handler [] 1).2).flows.filter
        isSliceRuleEntry).length = 3 := by
  decide

end SDN5G
